import Mathlib

/-!
Verification of the file-pickup watcher/dispatcher
(src/code/zato-server/src/zato/server/pickup.py).

The Python module is embedded shallowly:
- `PickupEvent` mirrors the `PickupEvent` class and its `__init__` defaults;
  the `_singleton` sentinel for the not-yet-computed `data` field becomes the
  `DataVal.singleton` constructor; raw bytes are `List Nat`.
- `PickupManager.get_parser` and its cache become `get_parser_fn` over an
  explicit association-list cache (`Cache`); the outcome of
  `getattr(import_module(...), ...)` is an environment oracle `py_import`,
  and invoking a resolved callable is the oracle `call`.
- `PickupManager.should_pick_up` becomes `should_pick_up`; a compiled
  pattern is modelled as its match predicate `String → Bool`, and the
  Python fall-through return value `None` is modelled as `false` (it is
  only ever used in boolean position, `if not self.should_pick_up(...)`).
- `PickupManager.post_handle` becomes `post_handle` over an explicit
  file-system state (`FS`); `shutil.copy` and `os.remove` are modelled with
  an oracle `copy_fails` for the failure of the archival copy.
- The per-event body of `PickupManager.run` (the inner `try` block) becomes
  `process_event`; a raised exception is the `err` field of the result,
  carrying along the mutations and spawned units that happened before the
  raise.  The per-event `except Exception` handler becomes `handle_event`,
  the batch loop becomes `process_batch`, and the poll loop `run_polls`.
- The startup phase of `run` (inotify availability test, directory existence
  check, watch registration, and the outermost `try/except` that logs any
  escaping exception) becomes `run_startup` / `setup_watches`.
-/

namespace Pickup

/-- Raw file content, as in Python a byte string read with `open(..., 'rb')`. -/
abbrev Bytes := List Nat

/-- A compiled filename pattern, modelled by its `pattern.match(name)` test.
Python returns a truthy match object or `None`; only truthiness is used. -/
abbrev Pattern := String → Bool

/-- Python exception values that arise in the module. -/
inductive PyErr where
  | ioError (msg : String)
  | keyError (msg : String)
  | valueError (msg : String)
  | notImplementedError (msg : String)
  | importError (msg : String)
  | parserRaised (msg : String)
  | exn (msg : String)
deriving DecidableEq

/-- A resolved parser callable: `getattr(import_module(module_path), callable_name)`. -/
inductive Callable where
  | pyCallable (module_path callable_name : String)
deriving DecidableEq

/-- A value produced by a parser. -/
inductive PyVal where
  | bytes (b : Bytes)
  | obj (tag : String)
deriving DecidableEq

/-- The `data` slot of a `PickupEvent`: either the `_singleton` sentinel
(never assigned) or an assigned value. -/
inductive DataVal where
  | singleton
  | val (v : PyVal)
deriving DecidableEq

/-- Mirrors class `PickupEvent` and the defaults set in `__init__`
(`ts_utc` is omitted: it is never read by the dispatcher logic modelled here). -/
structure PickupEvent where
  base_dir : Option String := none
  file_name : Option String := none
  full_path : Option String := none
  stanza : Option String := none
  raw_data : Bytes := []
  data : DataVal := DataVal.singleton
  has_raw_data : Bool := false
  has_data : Bool := false
  parse_error : Option PyErr := none
deriving DecidableEq

/-- One stanza's merged callback configuration, as consumed by `run`
(`self.callback_config[base_dir]`).  `move_processed_to = none` models a
falsy (absent or empty) `move_processed_to`. -/
structure Config where
  stanza : String := ""
  patterns : List Pattern := []
  read_on_pickup : Bool := false
  parse_on_pickup : Bool := false
  parse_with : String := ""
  is_service_hot_deploy : Bool := false
  move_processed_to : Option String := none
  delete_after_pick_up : Bool := false
  recipients : List String := []

/-- The parser cache `self._parser_cache`, an insertion-ordered dictionary. -/
abbrev Cache := List (String × Callable)

/-- The observable file system: path to content.  A path that is absent
cannot be opened for reading and cannot be removed. -/
abbrev FS := List (String × Bytes)

/-- Association-list lookup (Python dictionary access). -/
def alook {κ α : Type} [DecidableEq κ] : List (κ × α) → κ → Option α
  | [], _ => none
  | (k, v) :: rest, key => if k = key then some v else alook rest key

/-- The environment of external facts: the watch-descriptor map, the merged
per-directory configuration, the import system, callable invocation, and
which archival copies fail. -/
structure Env where
  wd_to_path : List (Nat × String) := []
  callback_config : List (String × Config) := []
  py_import : String → String → Except PyErr Callable :=
    fun m c => Except.ok (Callable.pyCallable m c)
  call : Callable → Bytes → Except PyErr PyVal :=
    fun _ _ => Except.ok (PyVal.obj "parsed")
  copy_fails : String → String → Bool := fun _ _ => false

/-- `os.path.join(base, name)` for the simple case arising here. -/
def path_join (a b : String) : String := a ++ "/" ++ b

/-- Split a character list on a separator character; like Python
`str.split(sep)`, always returns at least one (possibly empty) group. -/
def splitOnChar (c : Char) : List Char → List (List Char)
  | [] => [[]]
  | x :: xs =>
    if x = c then [] :: splitOnChar c xs
    else
      match splitOnChar c xs with
      | [] => [[x]]
      | g :: gs => (x :: g) :: gs

/-- Python `s.split(sep)` for a one-character separator. -/
def py_split (sep : Char) (s : String) : List String :=
  (splitOnChar sep s.data).map (fun l => String.mk l)

/-- Python whitespace test used by `str.strip()`. -/
def is_py_space (c : Char) : Bool :=
  c = ' ' || c = '\t' || c = '\n' || c = '\r' || c = '\x0b' || c = '\x0c'

/-- Python `s.strip()`: remove leading and trailing whitespace. -/
def py_strip (s : String) : String :=
  String.mk (((s.data.dropWhile is_py_space).reverse.dropWhile is_py_space).reverse)

/-- `'.'.join(parts)`. -/
def join_dots : List String → String
  | [] => ""
  | [x] => x
  | x :: xs => x ++ "." ++ join_dots xs

/-- The final component of a path, as used by `shutil.copy` into a directory. -/
def basename (p : String) : String := (py_split '/' p).getLastD ""

/-- Read a file's bytes, `none` when `open(path, 'rb')` would raise. -/
def fsRead (fs : FS) (p : String) : Option Bytes := alook fs p

/-- Write (create or overwrite) a file. -/
def fsWrite (fs : FS) (p : String) (b : Bytes) : FS :=
  (p, b) :: fs.filter (fun kv => !(kv.1 == p))

/-- Delete a file. -/
def fsErase (fs : FS) (p : String) : FS :=
  fs.filter (fun kv => !(kv.1 == p))

/-- `get_py_parser`: split the dotted name into module path and callable
name, then look the callable up in the import system. -/
def get_py_parser_fn (env : Env) (name : String) : Except PyErr Callable :=
  let parts := py_split '.' name
  let module_path := join_dots parts.dropLast
  let callable_name := parts.getLastD ""
  env.py_import module_path callable_name

/-- `get_service_parser`: always raises
`NotImplementedError('Not implemented in current version')`. -/
def get_service_parser_fn (_name : String) : Except PyErr Callable :=
  Except.error (PyErr.notImplementedError "Not implemented in current version")

/-- The tuple unpacking `type, name = s.split(':')`: succeeds exactly when
the split yields two parts, otherwise `ValueError` (modelled as `none`). -/
def split2 (s : String) : Option (String × String) :=
  match py_split ':' s with
  | [a, b] => some (a, b)
  | _ => none

/-- `get_parser`: serve from `_parser_cache` when present; otherwise parse
the identifier, resolve by namespace, and cache the result.  Every raising
path returns before the cache assignment, so the cache comes back unchanged
on error. -/
def get_parser_fn (env : Env) (cache : Cache) (parser_name : String) :
    Except PyErr Callable × Cache :=
  match alook cache parser_name with
  | some p => (Except.ok p, cache)
  | none =>
    match split2 (py_strip parser_name) with
    | none => (Except.error (PyErr.valueError "unpacking split result"), cache)
    | some (ty, name) =>
      match (if ty = "py" then get_py_parser_fn env name else get_service_parser_fn name) with
      | Except.error e => (Except.error e, cache)
      | Except.ok p => (Except.ok p, cache ++ [(parser_name, p)])

/-- `should_pick_up`: return `True` on the first matching pattern; the
fall-through `return None` is falsy and modelled as `false`. -/
def should_pick_up (name : String) : List Pattern → Bool
  | [] => false
  | p :: rest => if p name then true else should_pick_up name rest

/-- The `try/except` around parsing (lines 201-205 of `run`): resolve the
parser and invoke it on the raw bytes; on success `(none, data, true)`,
on any exception `(some e, singleton, false)` with the cache as the
resolution left it. -/
def parse_step (env : Env) (cache : Cache) (config : Config) (raw : Bytes) :
    (Option PyErr × DataVal × Bool) × Cache :=
  match get_parser_fn env cache config.parse_with with
  | (Except.error e, c) => ((some e, DataVal.singleton, false), c)
  | (Except.ok p, c) =>
    match env.call p raw with
    | Except.error e => ((some e, DataVal.singleton, false), c)
    | Except.ok v => ((none, DataVal.val v, true), c)

/-- `shutil.copy(src, dst)` where `dst` is the archive directory: copies the
file into `dst/<basename src>`; raises when the copy fails (oracle) or the
source is unreadable. -/
def shutil_copy (env : Env) (fs : FS) (src dst : String) : Except PyErr FS :=
  if env.copy_fails src dst then Except.error (PyErr.ioError ("copy failed " ++ src))
  else
    match fsRead fs src with
    | none => Except.error (PyErr.ioError src)
    | some content => Except.ok (fsWrite fs (path_join dst (basename src)) content)

/-- `os.remove(path)`: raises when the path is absent. -/
def os_remove (fs : FS) (p : String) : Except PyErr FS :=
  match fsRead fs p with
  | none => Except.error (PyErr.ioError p)
  | some _ => Except.ok (fsErase fs p)

/-- `post_handle`: copy to `move_processed_to` when configured, then delete
when configured.  An exception from either step propagates immediately
(there is no handler inside `post_handle`), carrying the file system as the
raising step left it. -/
def post_handle (env : Env) (fs : FS) (full_path : String) (config : Config) :
    Option PyErr × FS :=
  match config.move_processed_to with
  | some dst =>
    match shutil_copy env fs full_path dst with
    | Except.error e => (some e, fs)
    | Except.ok fs1 =>
      if config.delete_after_pick_up then
        match os_remove fs1 full_path with
        | Except.error e => (some e, fs1)
        | Except.ok fs2 => (none, fs2)
      else (none, fs1)
  | none =>
    if config.delete_after_pick_up then
      match os_remove fs full_path with
      | Except.error e => (some e, fs)
      | Except.ok fs2 => (none, fs2)
    else (none, fs)

/-- An inotify event as consumed by the loop. -/
structure Event where
  wd : Nat
  name : String
deriving DecidableEq

/-- A unit of work dispatched, or a log line emitted, while handling events. -/
inductive Effect where
  | hotDeploy (file_name full_path : String) (delete_after : Bool)
  | invokeCallbacks (pe : PickupEvent) (recipients : List String)
  | logWarn (e : PyErr)
deriving DecidableEq

/-- Result of the per-event body: the exception that escaped it (if any),
the concurrent units spawned before the raise, and the parser cache and
file system as the body left them. -/
structure ProcResult where
  err : Option PyErr
  effects : List Effect
  cache : Cache
  fs : FS
deriving DecidableEq

/-- The body of the inner `try` of `run` (lines 175-211): resolve the watch
descriptor and configuration, filter by pattern, then either hand off to
hot deploy, or read/parse, dispatch callbacks and post-handle. -/
def process_event (env : Env) (cache : Cache) (fs : FS) (ev : Event) : ProcResult :=
  match alook env.wd_to_path ev.wd with
  | none => ⟨some (PyErr.keyError (toString ev.wd)), [], cache, fs⟩
  | some base_dir =>
    match alook env.callback_config base_dir with
    | none => ⟨some (PyErr.keyError base_dir), [], cache, fs⟩
    | some config =>
      if should_pick_up ev.name config.patterns = false then
        ⟨none, [], cache, fs⟩
      else
        let file_name := ev.name
        let full_path := path_join base_dir ev.name
        if config.is_service_hot_deploy then
          ⟨none, [Effect.hotDeploy file_name full_path config.delete_after_pick_up], cache, fs⟩
        else
          if config.read_on_pickup then
            match fsRead fs full_path with
            | none => ⟨some (PyErr.ioError full_path), [], cache, fs⟩
            | some raw =>
              let step :=
                if config.parse_on_pickup then parse_step env cache config raw
                else ((none, DataVal.val (PyVal.bytes raw), false), cache)
              let pe : PickupEvent :=
                { base_dir := some base_dir, file_name := some file_name,
                  full_path := some full_path, stanza := some config.stanza,
                  raw_data := raw, has_raw_data := true,
                  data := step.1.2.1, has_data := step.1.2.2,
                  parse_error := step.1.1 }
              let ph := post_handle env fs full_path config
              ⟨ph.1, [Effect.invokeCallbacks pe config.recipients], step.2, ph.2⟩
          else
            let pe : PickupEvent :=
              { base_dir := some base_dir, file_name := some file_name,
                full_path := some full_path, stanza := some config.stanza }
            let ph := post_handle env fs full_path config
            ⟨ph.1, [Effect.invokeCallbacks pe config.recipients], cache, ph.2⟩

/-- The mutable state threaded through the loop: the parser cache, the file
system, and the accumulated trace of spawned units and log lines. -/
structure LoopState where
  cache : Cache
  fs : FS
  effects : List Effect
deriving DecidableEq

/-- One event under the per-event guard (`except Exception` at line 213):
an escaping exception is logged and the loop state keeps whatever the body
changed before raising. -/
def handle_event (env : Env) (st : LoopState) (ev : Event) : LoopState :=
  let r := process_event env st.cache st.fs ev
  match r.err with
  | some e => ⟨r.cache, r.fs, st.effects ++ r.effects ++ [Effect.logWarn e]⟩
  | none => ⟨r.cache, r.fs, st.effects ++ r.effects⟩

/-- `for event in events: ...` — one poll batch. -/
def process_batch (env : Env) (st : LoopState) (events : List Event) : LoopState :=
  events.foldl (handle_event env) st

/-- The polling loop over successive batches returned by
`infx.get_events(self.infx_fd, 1.0)`. -/
def run_polls (env : Env) (st : LoopState) : List (List Event) → LoopState
  | [] => st
  | batch :: rest => run_polls env (process_batch env st batch) rest

/-- The watch-registration loop of `run` (lines 162-166): raise for the
first configured path that does not exist, otherwise register one watch per
path, keyed by successive watch descriptors. -/
def setup_watches (dir_exists : String → Bool) : List String → Nat → Except PyErr (List (Nat × String))
  | [], _ => Except.ok []
  | p :: rest, wd =>
    if dir_exists p = false then
      Except.error (PyErr.exn ("Path does not exist `" ++ p ++ "`"))
    else
      match setup_watches dir_exists rest (wd + 1) with
      | Except.error e => Except.error e
      | Except.ok m => Except.ok ((wd, p) :: m)

/-- How a call to `run` ends its startup phase. -/
inductive RunOutcome where
  | disabled
  | loopEntered (wd_to_path : List (Nat × String))
  | startupFailedLogged (e : PyErr)
deriving DecidableEq

/-- The startup phase of `run`: when inotify is unavailable the watcher
disables itself and returns; otherwise register watches inside the outermost
`try` — an exception raised there is caught by the `except Exception` at
line 219, logged, and `run` returns without ever entering the polling
loop. -/
def run_startup (infx_available : Bool) (dir_exists : String → Bool)
    (paths : List String) : RunOutcome :=
  if infx_available = false then RunOutcome.disabled
  else
    match setup_watches dir_exists paths 1 with
    | Except.error e => RunOutcome.startupFailedLogged e
    | Except.ok m => RunOutcome.loopEntered m

/-- The first configured path that does not exist — the one whose check
raises in the watch-registration loop. -/
def first_missing (dir_exists : String → Bool) : List String → Option String
  | [] => none
  | p :: rest => if dir_exists p = false then some p else first_missing dir_exists rest

/-! Concrete instances used to exercise the model on explicit inputs. -/

/-- A stanza configured for read without parse (pass-through). -/
def cfgC1 : Config :=
  { stanza := "s1", patterns := [fun n => n == "a.txt"],
    read_on_pickup := true, recipients := ["r1"] }

/-- Environment watching `/in` with `cfgC1`. -/
def envC1 : Env := { wd_to_path := [(1, "/in")], callback_config := [("/in", cfgC1)] }

/-- A file system holding the picked-up file for the pass-through scenario. -/
def fsC1 : FS := [("/in/a.txt", [104, 105])]

/-- A stanza configured to archive and delete after pickup. -/
def cfgC2 : Config :=
  { stanza := "s2", patterns := [fun _ => true],
    move_processed_to := some "/archive", delete_after_pick_up := true }

/-- Environment in which every archival copy fails. -/
def envC2 : Env := { copy_fails := fun _ _ => true }

/-- File system holding the original file for the post-handle scenario. -/
def fsC2 : FS := [("/in/a.txt", [1, 2])]

/-- A stanza configured to read on pickup. -/
def cfgC3 : Config :=
  { stanza := "s3", patterns := [fun _ => true],
    read_on_pickup := true, recipients := ["r3"] }

/-- Environment watching `/in3` with `cfgC3`; the file system is empty, so
every read fails. -/
def envC3 : Env := { wd_to_path := [(3, "/in3")], callback_config := [("/in3", cfgC3)] }

/-- A stanza configured to read and parse with a service-namespaced parser
(whose resolution always raises). -/
def cfgC4 : Config :=
  { stanza := "s4", patterns := [fun _ => true], read_on_pickup := true,
    parse_on_pickup := true, parse_with := "svc:x", recipients := ["r4"] }

/-- Environment watching `/in4` with `cfgC4`. -/
def envC4 : Env := { wd_to_path := [(4, "/in4")], callback_config := [("/in4", cfgC4)] }

/-- File system holding the picked-up file for the parse-failure scenario. -/
def fsC4 : FS := [("/in4/a.txt", [7])]

/-- Environment with no watch descriptors registered: every event's
descriptor lookup raises `KeyError`. -/
def envC5 : Env := {}

/-- A stanza configured for service hot deployment. -/
def cfgC6 : Config :=
  { stanza := "s6", patterns := [fun _ => true], is_service_hot_deploy := true,
    delete_after_pick_up := true, recipients := ["r6"] }

/-- Environment watching `/in6` with `cfgC6`. -/
def envC6 : Env := { wd_to_path := [(6, "/in6")], callback_config := [("/in6", cfgC6)] }

/-- Environment whose import system resolves every dotted name. -/
def envC8a : Env := {}

/-- Environment whose import system fails on every dotted name: serving from
the cache cannot be confused with re-resolution against this environment. -/
def envC8b : Env := { py_import := fun _ _ => Except.error (PyErr.importError "gone") }

/-- Environment for exercising parser-resolution failures. -/
def envC10 : Env := {}

/-! Helper lemmas shared by the claim theorems. -/

/-- Appending a fresh key to an association list makes it found. -/
theorem alook_append_self {κ α : Type} [DecidableEq κ] (l : List (κ × α)) (k : κ) (v : α)
    (h : alook l k = none) : alook (l ++ [(k, v)]) k = some v := by
  induction l with
  | nil => simp [alook]
  | cons kv rest ih =>
    obtain ⟨k1, v1⟩ := kv
    simp only [alook, List.cons_append] at h ⊢
    by_cases hk : k1 = k
    · rw [if_pos hk] at h
      exact absurd h (by simp)
    · rw [if_neg hk] at h ⊢
      exact ih h

/-- A successful resolution leaves the identifier cached with the returned
callable. -/
theorem get_parser_fn_ok_cache (env : Env) (cache : Cache) (id : String)
    (p : Callable) (cache2 : Cache)
    (h : get_parser_fn env cache id = (Except.ok p, cache2)) :
    alook cache2 id = some p := by
  unfold get_parser_fn at h
  split at h
  · rename_i q hq
    simp only [Prod.mk.injEq, Except.ok.injEq] at h
    obtain ⟨rfl, rfl⟩ := h
    exact hq
  · rename_i hq
    split at h
    · simp at h
    · rename_i ty nm
      split at h
      · simp at h
      · rename_i q hr
        simp only [Prod.mk.injEq, Except.ok.injEq] at h
        obtain ⟨rfl, rfl⟩ := h
        exact alook_append_self cache id q hq

/-- A raising resolution returns the cache it was given. -/
theorem get_parser_fn_error_cache (env : Env) (cache : Cache) (id : String)
    (e : PyErr) (c : Cache)
    (h : get_parser_fn env cache id = (Except.error e, c)) : c = cache := by
  unfold get_parser_fn at h
  split at h
  · simp at h
  · split at h
    · simp only [Prod.mk.injEq] at h
      exact h.2.symm
    · split at h
      · simp only [Prod.mk.injEq] at h
        exact h.2.symm
      · simp at h

/-- When the parse step reports an exception, it leaves `data` at the
sentinel and `has_data` false. -/
theorem parse_step_error (env : Env) (cache : Cache) (config : Config) (raw : Bytes)
    (e : PyErr) (d : DataVal) (b : Bool) (c : Cache)
    (h : parse_step env cache config raw = ((some e, d, b), c)) :
    d = DataVal.singleton ∧ b = false := by
  unfold parse_step at h
  split at h
  · simp only [Prod.mk.injEq] at h
    exact ⟨h.1.2.1.symm, h.1.2.2.symm⟩
  · rename_i p c2
    split at h
    · simp only [Prod.mk.injEq] at h
      exact ⟨h.1.2.1.symm, h.1.2.2.symm⟩
    · simp only [Prod.mk.injEq] at h
      exact absurd h.1.1 (by simp)

/-- Watch setup raises exactly the error of the first missing path,
whatever the starting watch descriptor is. -/
theorem setup_watches_first_missing (dir_exists : String → Bool) :
    ∀ (paths : List String) (p : String), first_missing dir_exists paths = some p →
      ∀ wd, setup_watches dir_exists paths wd =
        Except.error (PyErr.exn ("Path does not exist `" ++ p ++ "`")) := by
  intro paths
  induction paths with
  | nil =>
    intro p hp
    simp [first_missing] at hp
  | cons q rest ih =>
    intro p hp wd
    by_cases hq : dir_exists q = false
    · simp only [first_missing, hq, if_true, Option.some.injEq] at hp
      subst hp
      simp [setup_watches, hq]
    · simp only [first_missing, hq, if_false] at hp
      simp [setup_watches, hq, ih p hp (wd + 1)]

/-- `should_pick_up` is the boolean disjunction of the pattern matches. -/
theorem should_pick_up_eq_any (name : String) (ps : List Pattern) :
    should_pick_up name ps = ps.any (fun p => p name) := by
  induction ps with
  | nil => rfl
  | cons p rest ih =>
    cases hp : p name with
    | true => simp [should_pick_up, hp]
    | false => simp [should_pick_up, hp, ih]

/-! Claim theorems. -/

/-- C7: for every filename and pattern set, `should_pick_up` returns true
iff at least one pattern matches the filename, and on the empty pattern set
it returns false for every filename. -/
theorem should_pick_up_spec (name : String) (ps : List Pattern) :
    (should_pick_up name ps = true ↔ ∃ p ∈ ps, p name = true) ∧
    should_pick_up name [] = false := by
  refine ⟨?_, rfl⟩
  rw [should_pick_up_eq_any]
  simp [List.any_eq_true]

/-- C8: once a parser identifier has been resolved successfully, every
subsequent resolution of the same identifier is served from the cache: it
returns the identical callable with the cache unchanged, independently of
the resolution environment (so the dotted-path lookup is not re-performed). -/
theorem parser_cache_hit (env env2 : Env) (cache : Cache) (id : String)
    (p : Callable) (cache2 : Cache)
    (h : get_parser_fn env cache id = (Except.ok p, cache2)) :
    get_parser_fn env2 cache2 id = (Except.ok p, cache2) := by
  have hm : alook cache2 id = some p := get_parser_fn_ok_cache env cache id p cache2 h
  unfold get_parser_fn
  rw [hm]

/-- C8 witness: resolving `py:m.f` against an environment that can resolve
it populates the cache; a second resolution, against an environment whose
imports all fail, still returns the same callable, from the cache. -/
theorem parser_cache_hit_witness :
    get_parser_fn envC8b [("py:m.f", Callable.pyCallable "m" "f")] "py:m.f" =
      (Except.ok (Callable.pyCallable "m" "f"),
       [("py:m.f", Callable.pyCallable "m" "f")]) :=
  parser_cache_hit envC8a envC8b [] "py:m.f" (Callable.pyCallable "m" "f")
    [("py:m.f", Callable.pyCallable "m" "f")] rfl

/-- C10: every raising path of `get_parser` returns before the cache
assignment, so a failed resolution leaves the cache unchanged; and an
uncached identifier whose namespace is not `py` always reaches
`get_service_parser`, which raises `NotImplementedError` — with the cache
unchanged, every repeated attempt does the same. -/
theorem parser_failure_not_cached (env : Env) (cache : Cache) (id : String) :
    (∀ e, (get_parser_fn env cache id).1 = Except.error e →
      (get_parser_fn env cache id).2 = cache) ∧
    (∀ ty nm, alook cache id = none → split2 (py_strip id) = some (ty, nm) → ty ≠ "py" →
      get_parser_fn env cache id =
        (Except.error (PyErr.notImplementedError "Not implemented in current version"),
         cache)) := by
  constructor
  · intro e h
    rcases hg : get_parser_fn env cache id with ⟨r, c⟩
    rw [hg] at h
    have h2 : r = Except.error e := h
    subst h2
    exact get_parser_fn_error_cache env cache id e c hg
  · intro ty nm hc hs hty
    simp [get_parser_fn, hc, hs, hty, get_service_parser_fn]

/-- C10 witness: resolving the service-namespaced identifier `svc:x` on an
empty cache raises `NotImplementedError` and leaves the cache empty. -/
theorem parser_failure_not_cached_witness :
    get_parser_fn envC10 [] "svc:x" =
      (Except.error (PyErr.notImplementedError "Not implemented in current version"), []) :=
  (parser_failure_not_cached envC10 [] "svc:x").2 "svc" "x" rfl rfl (by decide)

/-- C7 witness: the specification evaluated on a concrete filename and
one-pattern set. -/
theorem should_pick_up_spec_witness :
    (should_pick_up "a.txt" [fun n => n == "a.txt"] = true ↔
      ∃ p ∈ [fun n => (n == "a.txt")], p "a.txt" = true) ∧
    should_pick_up "a.txt" ([] : List Pattern) = false :=
  should_pick_up_spec "a.txt" [fun n => n == "a.txt"]

/-- C6: for a qualifying event whose stanza is configured for service hot
deployment, exactly one hot-deploy unit is dispatched, carrying the event's
filename and its full path, and nothing else happens: no read, no parse, no
recipient invocation, no post-processing — the parser cache and the file
system are returned untouched and no exception is raised. -/
theorem hot_deploy_exclusive (env : Env) (cache : Cache) (fs : FS) (ev : Event)
    (bd : String) (config : Config)
    (h1 : alook env.wd_to_path ev.wd = some bd)
    (h2 : alook env.callback_config bd = some config)
    (h3 : should_pick_up ev.name config.patterns = true)
    (h4 : config.is_service_hot_deploy = true) :
    process_event env cache fs ev =
      ⟨none,
       [Effect.hotDeploy ev.name (path_join bd ev.name) config.delete_after_pick_up],
       cache, fs⟩ := by
  simp [process_event, h1, h2, h3, h4]

/-- C6 witness: a hot-deploy stanza on a concrete event dispatches exactly
one hot-deploy unit with the event's filename and full path. -/
theorem hot_deploy_exclusive_witness :
    process_event envC6 [] [] ⟨6, "d.py"⟩ =
      ⟨none, [Effect.hotDeploy "d.py" (path_join "/in6" "d.py") true], [], []⟩ :=
  hot_deploy_exclusive envC6 [] [] ⟨6, "d.py"⟩ "/in6" cfgC6 rfl rfl rfl rfl

/-- C1 counterexample: with `read_on_pickup = true` and
`parse_on_pickup = false`, the dispatched occurrence carries
`data = raw_data` (pass-through) but `has_data = false` — the claim's
`hasParsedData = true` is false on this concrete run: the pass-through
branch of `run` assigns `pe.data` without ever setting `pe.has_data`. -/
theorem pass_through_counterexample :
    process_event envC1 [] fsC1 ⟨1, "a.txt"⟩ =
      ⟨none,
       [Effect.invokeCallbacks
          { base_dir := some "/in", file_name := some "a.txt",
            full_path := some "/in/a.txt", stanza := some "s1",
            raw_data := [104, 105], has_raw_data := true,
            data := DataVal.val (PyVal.bytes [104, 105]), has_data := false,
            parse_error := none } ["r1"]],
       [], fsC1⟩ := by decide

/-- C1 (amended): for every occurrence with `read_on_pickup = true` and
`parse_on_pickup = false` whose read succeeds, the dispatched occurrence's
`data` equals its raw bytes (pass-through) but `has_data` remains false. -/
theorem pass_through_data_no_flag (env : Env) (cache : Cache) (fs : FS) (ev : Event)
    (bd : String) (config : Config) (raw : Bytes)
    (h1 : alook env.wd_to_path ev.wd = some bd)
    (h2 : alook env.callback_config bd = some config)
    (h3 : should_pick_up ev.name config.patterns = true)
    (h4 : config.is_service_hot_deploy = false)
    (h5 : config.read_on_pickup = true)
    (h6 : config.parse_on_pickup = false)
    (h7 : fsRead fs (path_join bd ev.name) = some raw) :
    (process_event env cache fs ev).effects =
      [Effect.invokeCallbacks
        { base_dir := some bd, file_name := some ev.name,
          full_path := some (path_join bd ev.name), stanza := some config.stanza,
          raw_data := raw, has_raw_data := true,
          data := DataVal.val (PyVal.bytes raw), has_data := false,
          parse_error := none } config.recipients] := by
  simp [process_event, h1, h2, h3, h4, h5, h6, h7]

/-- C1 witness: the amended pass-through property on a concrete run. -/
theorem pass_through_witness :
    (process_event envC1 [] fsC1 ⟨1, "a.txt"⟩).effects =
      [Effect.invokeCallbacks
        { base_dir := some "/in", file_name := some "a.txt",
          full_path := some "/in/a.txt", stanza := some "s1",
          raw_data := [104, 105], has_raw_data := true,
          data := DataVal.val (PyVal.bytes [104, 105]), has_data := false,
          parse_error := none } ["r1"]] :=
  pass_through_data_no_flag envC1 [] fsC1 ⟨1, "a.txt"⟩ "/in" cfgC1 [104, 105]
    rfl rfl rfl rfl rfl rfl rfl

/-- C3 counterexample: with `read_on_pickup = true` and the file absent, the
per-event body raises `IOError` and dispatches nothing — the effects list is
empty, so the occurrence does not proceed to recipient invocation,
contradicting the claim that recipients are still invoked with
`has_raw_data = false`. -/
theorem read_failure_counterexample :
    process_event envC3 [] [] ⟨3, "f.txt"⟩ =
      ⟨some (PyErr.ioError "/in3/f.txt"), [], [], []⟩ := by decide

/-- C3 (amended): when the file read raises, the exception escapes the
per-event body (no recipient invocation is dispatched, the cache and file
system are untouched) and the per-event guard catches it and logs it, so
the loop continues with the next event. -/
theorem read_failure_aborts_occurrence (env : Env) (cache : Cache) (fs : FS) (ev : Event)
    (bd : String) (config : Config)
    (h1 : alook env.wd_to_path ev.wd = some bd)
    (h2 : alook env.callback_config bd = some config)
    (h3 : should_pick_up ev.name config.patterns = true)
    (h4 : config.is_service_hot_deploy = false)
    (h5 : config.read_on_pickup = true)
    (h6 : fsRead fs (path_join bd ev.name) = none) :
    process_event env cache fs ev =
      ⟨some (PyErr.ioError (path_join bd ev.name)), [], cache, fs⟩ ∧
    ∀ effs, handle_event env ⟨cache, fs, effs⟩ ev =
      ⟨cache, fs, effs ++ [Effect.logWarn (PyErr.ioError (path_join bd ev.name))]⟩ := by
  have hpe : process_event env cache fs ev =
      ⟨some (PyErr.ioError (path_join bd ev.name)), [], cache, fs⟩ := by
    simp [process_event, h1, h2, h3, h4, h5, h6]
  refine ⟨hpe, fun effs => ?_⟩
  simp [handle_event, hpe]

/-- C3 witness: the amended read-failure property on a concrete run. -/
theorem read_failure_witness :
    process_event envC3 [] [] ⟨3, "f.txt"⟩ =
      ⟨some (PyErr.ioError (path_join "/in3" "f.txt")), [], [], []⟩ ∧
    handle_event envC3 ⟨[], [], []⟩ ⟨3, "f.txt"⟩ =
      ⟨[], [], [Effect.logWarn (PyErr.ioError (path_join "/in3" "f.txt"))]⟩ := by
  have h := read_failure_aborts_occurrence envC3 [] [] ⟨3, "f.txt"⟩ "/in3" cfgC3
    rfl rfl rfl rfl rfl rfl
  exact ⟨h.1, by simpa using h.2 []⟩

/-- C4: when reading and parsing are configured and the parse step (parser
resolution or parser invocation) raises, the occurrence is still dispatched
to the recipients, carrying `has_data = false`, the `data` sentinel, and the
exception recorded as `parse_error`. -/
theorem parse_failure_still_dispatches (env : Env) (cache : Cache) (fs : FS) (ev : Event)
    (bd : String) (config : Config) (raw : Bytes) (e : PyErr) (d : DataVal) (b : Bool) (c : Cache)
    (h1 : alook env.wd_to_path ev.wd = some bd)
    (h2 : alook env.callback_config bd = some config)
    (h3 : should_pick_up ev.name config.patterns = true)
    (h4 : config.is_service_hot_deploy = false)
    (h5 : config.read_on_pickup = true)
    (h6 : config.parse_on_pickup = true)
    (h7 : fsRead fs (path_join bd ev.name) = some raw)
    (h8 : parse_step env cache config raw = ((some e, d, b), c)) :
    (process_event env cache fs ev).effects =
      [Effect.invokeCallbacks
        { base_dir := some bd, file_name := some ev.name,
          full_path := some (path_join bd ev.name), stanza := some config.stanza,
          raw_data := raw, has_raw_data := true,
          data := DataVal.singleton, has_data := false,
          parse_error := some e } config.recipients] := by
  obtain ⟨rfl, rfl⟩ := parse_step_error env cache config raw e d b c h8
  simp [process_event, h1, h2, h3, h4, h5, h6, h7, h8]

/-- C4 witness: a service-namespaced parser raises `NotImplementedError`;
the occurrence is still dispatched with the error recorded. -/
theorem parse_failure_witness :
    (process_event envC4 [] fsC4 ⟨4, "a.txt"⟩).effects =
      [Effect.invokeCallbacks
        { base_dir := some "/in4", file_name := some "a.txt",
          full_path := some "/in4/a.txt", stanza := some "s4",
          raw_data := [7], has_raw_data := true,
          data := DataVal.singleton, has_data := false,
          parse_error :=
            some (PyErr.notImplementedError "Not implemented in current version") }
        ["r4"]] :=
  parse_failure_still_dispatches envC4 [] fsC4 ⟨4, "a.txt"⟩ "/in4" cfgC4 [7]
    (PyErr.notImplementedError "Not implemented in current version")
    DataVal.singleton false [] rfl rfl rfl rfl rfl rfl rfl rfl

/-- C5: an exception escaping the handling of one event is caught by the
per-event guard and turned into a log entry, and the loop proceeds with the
rest of the batch and the remaining polls — no single event's exception
terminates the run. -/
theorem event_errors_isolated (env : Env) (st : LoopState) (ev : Event) (e : PyErr)
    (rest : List Event) (batches : List (List Event))
    (h : (process_event env st.cache st.fs ev).err = some e) :
    handle_event env st ev =
      ⟨(process_event env st.cache st.fs ev).cache,
       (process_event env st.cache st.fs ev).fs,
       st.effects ++ (process_event env st.cache st.fs ev).effects ++ [Effect.logWarn e]⟩ ∧
    run_polls env st ((ev :: rest) :: batches) =
      run_polls env (process_batch env (handle_event env st ev) rest) batches := by
  refine ⟨?_, rfl⟩
  simp [handle_event, h]

/-- C5 witness: an event with an unknown watch descriptor raises `KeyError`;
the guard logs it and the loop goes on. -/
theorem event_errors_isolated_witness :
    handle_event envC5 ⟨[], [], []⟩ ⟨7, "x"⟩ =
      ⟨[], [], [Effect.logWarn (PyErr.keyError "7")]⟩ ∧
    run_polls envC5 ⟨[], [], []⟩ [[⟨7, "x"⟩]] =
      run_polls envC5 (process_batch envC5 (handle_event envC5 ⟨[], [], []⟩ ⟨7, "x"⟩) []) [] := by
  have h := event_errors_isolated envC5 ⟨[], [], []⟩ ⟨7, "x"⟩ (PyErr.keyError "7") [] [] rfl
  exact ⟨by rw [h.1]; decide, h.2⟩

/-- C2 counterexample: with `move_processed_to` set and
`delete_after_pick_up = true` and the archival copy raising, `post_handle`
propagates the copy's exception immediately and the original file is still
present — the delete did NOT proceed, contradicting the claim that deletion
occurs even when the copy step raises. -/
theorem post_handle_counterexample :
    post_handle envC2 fsC2 "/in/a.txt" cfgC2 =
      (some (PyErr.ioError "copy failed /in/a.txt"), fsC2) ∧
    fsRead fsC2 "/in/a.txt" = some [1, 2] := by decide

/-- C2 (amended): with both cleanup actions configured, the archival copy is
attempted before the delete, and the delete operates on the post-copy file
system; but when the copy raises, the exception propagates out of
`post_handle` at once (to the per-event guard) and the delete of the
original is not performed. -/
theorem post_handle_copy_then_delete (env : Env) (fs : FS) (fp dst : String) (config : Config)
    (hm : config.move_processed_to = some dst)
    (hd : config.delete_after_pick_up = true) :
    (∀ e, shutil_copy env fs fp dst = Except.error e →
      post_handle env fs fp config = (some e, fs)) ∧
    (∀ fs1, shutil_copy env fs fp dst = Except.ok fs1 →
      post_handle env fs fp config =
        (match os_remove fs1 fp with
         | Except.error e => (some e, fs1)
         | Except.ok fs2 => (none, fs2))) := by
  constructor
  · intro e hc
    simp [post_handle, hm, hc]
  · intro fs1 hc
    simp [post_handle, hm, hc, hd]

/-- C2 witness: the amended property applied where the copy raises — the
exception propagates and the file system (still holding the original) is
returned unchanged. -/
theorem post_handle_witness :
    post_handle envC2 fsC2 "/in/a.txt" cfgC2 =
      (some (PyErr.ioError "copy failed /in/a.txt"), fsC2) :=
  (post_handle_copy_then_delete envC2 fsC2 "/in/a.txt" "/archive" cfgC2 rfl rfl).1
    (PyErr.ioError "copy failed /in/a.txt") rfl

/-- C9 counterexample: with a configured directory missing, `run` raises
during watch setup and the polling loop is never entered — but the exception
IS caught: it lands in the outermost `except Exception` handler of `run`,
which logs it and returns normally (outcome `startupFailedLogged`), so the
claim's "it is not caught" is false on this concrete input. -/
theorem missing_dir_counterexample :
    run_startup true (fun q => q == "/x") ["/c"] =
      RunOutcome.startupFailedLogged (PyErr.exn "Path does not exist `/c`") := by decide

/-- C9 (amended): if any configured source directory is missing at startup,
watch setup raises (with the first missing path) and the polling loop is
never entered (`RunOutcome.loopEntered` is not produced); the exception is
caught by `run`'s outermost handler and logged, and `run` returns normally
instead of propagating it. -/
theorem missing_dir_logged_no_loop (dir_exists : String → Bool) (paths : List String)
    (p : String) (h : first_missing dir_exists paths = some p) :
    run_startup true dir_exists paths =
      RunOutcome.startupFailedLogged (PyErr.exn ("Path does not exist `" ++ p ++ "`")) := by
  simp [run_startup, setup_watches_first_missing dir_exists paths p h 1]

/-- C9 witness: the amended startup property on a concrete directory set
whose second entry is missing. -/
theorem missing_dir_witness :
    run_startup true (fun q => q == "/a") ["/a", "/b"] =
      RunOutcome.startupFailedLogged (PyErr.exn "Path does not exist `/b`") :=
  missing_dir_logged_no_loop (fun q => q == "/a") ["/a", "/b"] "/b" rfl

end Pickup
